import Mathlib

/-!
Verification development for the tiny_tamp pick-and-place orchestrator.

The development shallowly embeds the Python sources `tamp.py` and
`tiny_tamp/structs.py`.  Numeric values are modelled as rationals (`ℚ`);
Python `None` and fallible operations are modelled with `Option`/`Except`;
the mutable pybullet world is modelled as an explicit state record that the
embedded operations thread through.  The pybullet helper module
`tiny_tamp/pb_utils.py` and the planner `tiny_tamp/planning.py` are not part
of the sources; where a definition depends on them it is either taken as a
parameter (planner, pose-distance metric, forward kinematics) or modelled
from the specification text, as indicated by its doc comment.
-/

namespace TinyTamp

/-! ## Rigid transforms (modelled from the spec)

Modelled from the spec: `pb_utils.Pose` is a rigid transform in the world
frame given by a translation and an orientation quaternion, and
`pb_utils.multiply` composes rigid transforms (spec section 3, "rigid
transform in world frame", and section 4.2 "pure geometric composition").
`pb_utils.py` is not among the sources. -/

structure V3 where
  x : ℚ
  y : ℚ
  z : ℚ
deriving DecidableEq

def V3.add (a b : V3) : V3 := ⟨a.x + b.x, a.y + b.y, a.z + b.z⟩

def V3.smul (c : ℚ) (a : V3) : V3 := ⟨c * a.x, c * a.y, c * a.z⟩

def V3.cross (a b : V3) : V3 :=
  ⟨a.y * b.z - a.z * b.y, a.z * b.x - a.x * b.z, a.x * b.y - a.y * b.x⟩

/-- Quaternion in pybullet component order (x, y, z, w). -/
structure Quat where
  x : ℚ
  y : ℚ
  z : ℚ
  w : ℚ
deriving DecidableEq

/-- Hamilton product of two quaternions. -/
def Quat.mul (a b : Quat) : Quat :=
  ⟨a.w * b.x + a.x * b.w + a.y * b.z - a.z * b.y,
   a.w * b.y - a.x * b.z + a.y * b.w + a.z * b.x,
   a.w * b.z + a.x * b.y - a.y * b.x + a.z * b.w,
   a.w * b.w - a.x * b.x - a.y * b.y - a.z * b.z⟩

/-- Rotation of a vector by a unit quaternion, in the rational form
v + 2 qv × (qv × v + w v) with qv the vector part. -/
def Quat.rotate (q : Quat) (v : V3) : V3 :=
  let qv : V3 := ⟨q.x, q.y, q.z⟩
  V3.add v (V3.smul 2 (V3.cross qv (V3.add (V3.cross qv v) (V3.smul q.w v))))

def unit_quat : Quat := ⟨0, 0, 0, 1⟩

/-- Rigid transform: translation plus orientation quaternion. -/
structure Pose where
  pos : V3
  orn : Quat
deriving DecidableEq

/-- Composition of rigid transforms, as `pb_utils.multiply` of two poses. -/
def multiply (a b : Pose) : Pose :=
  ⟨V3.add a.pos (Quat.rotate a.orn b.pos), Quat.mul a.orn b.orn⟩

/-- Identity transform, as `pb_utils.unit_pose()`. -/
def unit_pose : Pose := ⟨⟨0, 0, 0⟩, unit_quat⟩

/-- Pure translation, as `pb_utils.Pose(pb_utils.Point(x, y, z))`. -/
def posePoint (x y z : ℚ) : Pose := ⟨⟨x, y, z⟩, unit_quat⟩

/-! ## Data model (structs.py lines 51-82) -/

/-- ObjectState (structs.py lines 51-57).  The `create_object` field is a
Python callable that instantiates a new body in a pybullet client and
returns its handle; its behaviour is modelled where it is invoked (see
`create_object_and_pose`), so the record keeps only the data fields. -/
structure ObjectState where
  pose : Pose
  category : String
deriving DecidableEq

/-- WorldBelief (structs.py lines 60-66).  `GoalBelief` (lines 69-82) is a
subclass adding no fields, so goal beliefs reuse this type. -/
structure WorldBelief where
  object_states : List ObjectState
  robot_state : List ℚ
  gripper_open : Bool
deriving DecidableEq

/-! ## Command model (structs.py lines 267-357) -/

/-- Attachment (structs.py lines 349-357).  `parent_link` is typed `int` in
the dataclass, but Python is dynamically typed and the shipped grasp
generator passes the value of the `tool_link` property there, which is
`None`; the field is therefore modelled as `Option Int`. -/
structure Attachment where
  parent : Int
  parent_link : Option Int
  child : Int
  parent_T_child : Pose
deriving DecidableEq

/-- Trajectory fields (structs.py lines 275-282).  `time_after_contact`
defaults to `np.inf` in the dataclass; the default is never needed by the
embedded operations, so the field is carried as a plain rational. -/
structure Trajectory where
  robot : Int
  joints : List Int
  path : List (List ℚ)
  velocity_scale : ℚ
  time_after_contact : ℚ
  attachments : List Attachment
deriving DecidableEq

/-- Python exceptions raised by the embedded operations. -/
inductive PyError where
  | typeError (msg : String)
  | valueError (msg : String)
  | attributeError (msg : String)
deriving DecidableEq

/-- Trajectory.reverse (structs.py lines 284-291).  The source constructs
`self.__class__(self.joints, self.path[::-1], velocity_scale=...,
time_after_contact=..., attachments=...)`.  The dataclass `__init__` has
three required positional parameters `robot`, `joints`, `path`; the call
supplies only two positional arguments (binding `robot := self.joints` and
`joints := self.path[::-1]`) and no `path`, so Python raises `TypeError`
before any instance is constructed.  The embedding therefore returns that
error for every input. -/
def Trajectory.reverse (_t : Trajectory) : Except PyError Trajectory :=
  Except.error (PyError.typeError "Trajectory init missing 1 required positional argument: path")

/-- Modelled from the spec: `Trajectory.reverse()` as specified in section 8
("must yield a path equal to the original path reversed, with all other
fields preserved unchanged"); this is the intended behaviour the source
slips on. -/
def Trajectory.reverseSpec (t : Trajectory) : Trajectory :=
  { t with path := t.path.reverse }

/-- Command (structs.py lines 267-331): a closed tagged set of executable
command variants.  `unknown` stands for any other Python value reaching the
interpreter, which is dynamically typed; the interpreter's final `else`
branch raises on it. -/
inductive Command where
  | traj (t : Trajectory)
  | activateGrasp (robot gripper_link body : Int)
  | deactivateGrasp (robot gripper_link body : Int)
  | seq (commands : List Command) (name : Option String)
  | unknown (descr : String)

/-- Grasp (structs.py lines 360-380). -/
structure Grasp where
  attachment : Attachment
  closed_position : ℚ

/-- Grasp.get_pregrasp_pose (structs.py lines 365-377): the four-transform
composition `multiply(gripper_T_tool, Pose(Point(x=tool_distance)),
current_tool_pose, Pose(Point(z=-object_distance)))`.  The variadic
`pb_utils.multiply` is left-associated binary composition. -/
def Grasp.get_pregrasp_pose (_g : Grasp) (current_tool_pose : Pose)
    (gripper_T_tool : Pose) (tool_distance : ℚ) (object_distance : ℚ) : Pose :=
  multiply (multiply (multiply gripper_T_tool (posePoint tool_distance 0 0))
      current_tool_pose)
    (posePoint 0 0 (-object_distance))

/-! ## Simulator instance and world state (structs.py lines 85-264)

A `SimulatorInstance` holds the fixed handles of one pybullet session:
the robot id, the ids of the tracked movable bodies, and the gripper
group joint limits (`get_group_limits` on the gripper group is an external
pybullet query whose result is fixed for the session).  The mutable
pybullet world behind the session — the world pose of every body, the
fresh-body allocator, and the robot arm/gripper joint positions — is
modelled as an explicit `World` record threaded through the operations. -/

structure SimInst where
  robot : Int
  movable_objects : List Int
  closedConf : List ℚ
  openConf : List ℚ

structure World where
  poses : Int → Pose
  nextBody : Int
  armConf : List ℚ
  gripperConf : List ℚ

/-- pb_utils.set_pose: set the world pose of one body. -/
def set_pose (w : World) (body : Int) (p : Pose) : World :=
  { w with poses := fun b => if b = body then p else w.poses b }

/-- SimulatorInstance.open_gripper (structs.py lines 205-210), called with
no argument: set the gripper group to its open joint limits.  The
real-robot mirroring branch is the external hardware sink (spec section 1)
and is not modelled. -/
def open_gripper (s : SimInst) (w : World) : World :=
  { w with gripperConf := s.openConf }

/-- SimulatorInstance.close_gripper (structs.py lines 212-217), called with
no argument: set the gripper group to its closed joint limits. -/
def close_gripper (s : SimInst) (w : World) : World :=
  { w with gripperConf := s.closedConf }

/-- SimulatorInstance.set_group_positions on the arm group (structs.py
lines 229-235). -/
def setArm (w : World) (positions : List ℚ) : World :=
  { w with armConf := positions }

/-- One iteration of the loop in SimulatorInstance.set_belief (structs.py
lines 141-144): `pbu.set_pose(obj_state.create_object(self.client),
obj_state.pose, client=self.client)`.  The call `obj_state.create_object`
instantiates a NEW body in the session and returns its handle (spec
section 3 "factory capability that instantiates the object"; the factories
shipped in tamp.py call `pbu.create_box`); the fresh handle is then posed.
Modelled by allocating `nextBody` and posing it. -/
def create_object_and_pose (w : World) (os : ObjectState) : World :=
  set_pose { w with nextBody := w.nextBody + 1 } w.nextBody os.pose

/-- SimulatorInstance.set_belief (structs.py lines 138-149): assert the
object counts match, run `create_object_and_pose` over the belief objects,
re-apply the arm joint state, then open or close the gripper.  `none`
models the `AssertionError` on a count mismatch. -/
def set_belief (s : SimInst) (w : World) (b : WorldBelief) : Option World :=
  if b.object_states.length = s.movable_objects.length then
    let w1 := b.object_states.foldl create_object_and_pose w
    let w2 := setArm w1 b.robot_state
    some (if b.gripper_open then open_gripper s w2 else close_gripper s w2)
  else none

/-- SimulatorInstance.tool_link (structs.py lines 191-193).  The property
body evaluates `pbu.link_from_name(self.robot, PANDA_TOOL_TIP, ...)` and
discards the result; the body contains no return statement, so the
property evaluates to Python `None` on every instance. -/
def SimInst.tool_link (_s : SimInst) : Option Int := none

/-- gen_fn inside get_grasp_gen_fn (tamp.py lines 84-100).  `grasp_pose`
stands for the fixed expression `pbu.multiply(pbu.Pose(euler=pbu.Euler(
pitch=-np.pi/2)), pbu.Pose(pbu.Point(z=-0.01)))`, whose numeric value
needs pb_utils (not among the sources) and irrational constants; it is the
same for every object and is passed in as a parameter.  `closed_position`
is `closed_conf[0] * (1 + 5e-2)` with `closed_conf` the first component of
the gripper group limits. -/
def get_grasp_gen_fn (sim : SimInst) (grasp_pose : Pose) : Int → Grasp :=
  fun obj =>
    { attachment :=
        { parent := sim.robot, parent_link := sim.tool_link, child := obj,
          parent_T_child := grasp_pose },
      closed_position := (sim.closedConf.headD 0) * (1 + 5 / 100) }

/-- SimulatorInstance.command_trajectory (structs.py lines 237-251): for
each waypoint set the arm group joint positions, collect the named
positions for the hardware sink, and sleep.  Nothing else in the world is
touched; in particular no attachment is read or re-satisfied.  The
real-time pacing and the real-robot branch are external effects and are
not modelled. -/
def command_trajectory (w : World) (path : List (List ℚ)) : World :=
  path.foldl setArm w

/-- World states after each waypoint of command_trajectory, in order: the
state the session is in once `set_group_positions` has run for that
waypoint. -/
def command_trajectory_states (w : World) : List (List ℚ) → List World
  | [] => []
  | positions :: rest =>
    setArm w positions :: command_trajectory_states (setArm w positions) rest

/-- Record of one leaf dispatch performed by the interpreter. -/
inductive LeafTag where
  | trajLeaf (path : List (List ℚ))
  | activateLeaf (robot gripper_link body : Int)
  | deactivateLeaf (robot gripper_link body : Int)
deriving DecidableEq

/-- SimulatorInstance.execute_sequence (structs.py lines 253-264).  The
interpreter iterates over a list of commands and dispatches on the variant:
a `Trajectory` runs `command_trajectory(command.path)`; an `ActivateGrasp`
branch calls `self.close_gripper(command)` — but `close_gripper` (line 212)
takes no argument besides `self`, so the call raises `TypeError` before the
gripper moves, aborting execution; symmetrically `DeactivateGrasp` calls
`self.open_gripper(command)` and raises; a `Sequence` recurses into its
`commands`; any other value hits the final `else` and raises `ValueError`.
The result is the final world, the trace of leaves dispatched in order, and
the first error if one was raised. -/
def execute_sequence (w : World) : List Command → World × List LeafTag × Option PyError
  | [] => (w, [], none)
  | c :: rest =>
    match c with
    | .traj t =>
      let w' := command_trajectory w t.path
      match execute_sequence w' rest with
      | (w'', tr, e) => (w'', .trajLeaf t.path :: tr, e)
    | .activateGrasp r l b =>
      (w, [.activateLeaf r l b],
        some (.typeError "close_gripper takes 1 positional argument but 2 were given"))
    | .deactivateGrasp r l b =>
      (w, [.deactivateLeaf r l b],
        some (.typeError "open_gripper takes 1 positional argument but 2 were given"))
    | .seq cs _ =>
      match execute_sequence w cs with
      | (w', tr, none) =>
        match execute_sequence w' rest with
        | (w'', tr2, e) => (w'', tr ++ tr2, e)
      | (w', tr, some err) => (w', tr, some err)
    | .unknown descr =>
      (w, [], some (.valueError ("Unknown command type: " ++ descr)))
  termination_by l => sizeOf l
  decreasing_by all_goals simp_wf <;> omega

mutual

/-- Fully flattened left-to-right leaf list of one command. -/
def flattenC : Command → List LeafTag
  | .traj t => [.trajLeaf t.path]
  | .activateGrasp r l b => [.activateLeaf r l b]
  | .deactivateGrasp r l b => [.deactivateLeaf r l b]
  | .seq cs _ => flattenL cs
  | .unknown _ => []

/-- Fully flattened left-to-right leaf list of a command list. -/
def flattenL : List Command → List LeafTag
  | [] => []
  | c :: cs => flattenC c ++ flattenL cs

end

mutual

/-- Whether an unrecognized value occurs anywhere in a command. -/
def hasUnknownC : Command → Bool
  | .seq cs _ => hasUnknownL cs
  | .unknown _ => true
  | _ => false

/-- Whether an unrecognized value occurs anywhere in a command list. -/
def hasUnknownL : List Command → Bool
  | [] => false
  | c :: cs => hasUnknownC c || hasUnknownL cs

end

/-! ## Orchestrator (tamp.py lines 103-162)

The pluggable pieces that `main` wires in but whose code is outside the
sources are taken as parameters of the embedded loop:

* `d` stands for `pbu.get_pose_distance` (pb_utils is not among the
  sources; spec section 4.1 describes it as a (position-distance,
  orientation-distance) pair);
* `planner` stands for `get_pick_place_plan` applied to the twin instance,
  the grasp sampler and the motion planner (tiny_tamp/planning.py is not
  among the sources); its observable inputs in the loop are the current
  belief, the simulator object handle and the placement pose, and it
  returns an optional sub-plan and a statistics record;
* `movable` is `twin_sim_instance.movable_objects`. -/

/-- Statistics record returned by the planner: a string-keyed map. -/
def Stats := List (String × ℚ)
deriving DecidableEq

/-- Observable actions of one orchestrator run, in order. -/
inductive Event where
  | plannerCall (simObj : Int) (placement : Pose)
  | printLine (s : String)
  | printStats (st : Stats)
deriving DecidableEq

/-- Mutable state of the orchestrator loop: the current belief (mutated in
place by the source), the accumulated `plan_components`, and the event
trace. -/
structure LoopState where
  belief : WorldBelief
  plans : List Command
  events : List Event

/-- Outcome of a run: loop completed; or `sys.exit()` was called after a
planning failure (Python exits with status 0 when `sys.exit` gets no
argument); or an uncaught exception. -/
inductive RunResult where
  | finished (ls : LoopState)
  | exited (ls : LoopState) (stats : Stats) (code : Nat)
  | crashed (ls : LoopState) (msg : String)

/-- The comprehension in tamp.py lines 127-131: first (index, object) of
the belief whose category equals the goal category; `none` models the
IndexError that `[...][0]` raises when no object matches. -/
def firstMatch : List ObjectState → String → Option (Nat × ObjectState)
  | [], _ => none
  | o :: rest, cat =>
    if o.category = cat then some (0, o)
    else (firstMatch rest cat).map (fun p => (p.1 + 1, p.2))

/-- The access `subplan.commands[-1].commands[-1].path[-1]` in tamp.py line
157: the sub-plan must be a Sequence whose last command is a Sequence whose
last command is a Trajectory with a nonempty path; `none` models the
AttributeError/IndexError raised when the shape differs. -/
def subplanFinalConf : Command → Option (List ℚ)
  | .seq cs _ =>
    match cs.getLast? with
    | some (.seq inner _) =>
      match inner.getLast? with
      | some (.traj t) => t.path.getLast?
      | _ => none
    | _ => none
  | _ => none

/-- One iteration of the per-object loop in tamp.py lines 124-159 for the
goal object `g`: match the first belief object by category, compute the
pose error, and either skip (both errors within 1e-2), or invoke the
planner and exit/update/crash according to its answer.  `Sum.inl` is the
loop continuing with the updated state; `Sum.inr` ends the run. -/
def stepGoal (d : Pose → Pose → ℚ × ℚ)
    (planner : WorldBelief → Int → Pose → Option Command × Stats)
    (movable : List Int) (ls : LoopState) (g : ObjectState) :
    LoopState ⊕ RunResult :=
  match firstMatch ls.belief.object_states g.category with
  | none => Sum.inr (.crashed ls "IndexError: list index out of range")
  | some (idx, bobj) =>
    if (1 / 100 : ℚ) < (d bobj.pose g.pose).1 ∨ (1 / 100 : ℚ) < (d bobj.pose g.pose).2 then
      match movable.get? idx with
      | none => Sum.inr (.crashed ls "IndexError: movable_objects index out of range")
      | some simObj =>
        match planner ls.belief simObj g.pose with
        | (none, stats) =>
          Sum.inr (.exited
            { ls with events := ls.events ++
                [.plannerCall simObj g.pose, .printLine "Planning failure", .printStats stats] }
            stats 0)
        | (some subplan, _stats) =>
          match subplanFinalConf subplan with
          | none =>
            Sum.inr (.crashed
              { ls with events := ls.events ++ [.plannerCall simObj g.pose] }
              "AttributeError: sub-plan does not have the expected shape")
          | some conf =>
            Sum.inl
              { belief :=
                  { object_states :=
                      ls.belief.object_states.set idx { bobj with pose := g.pose },
                    robot_state := conf,
                    gripper_open := ls.belief.gripper_open },
                plans := ls.plans ++ [subplan],
                events := ls.events ++ [.plannerCall simObj g.pose] }
    else Sum.inl ls

/-- The loop of tamp.py lines 124-159 over a list of goal objects. -/
def runGoals (d : Pose → Pose → ℚ × ℚ)
    (planner : WorldBelief → Int → Pose → Option Command × Stats)
    (movable : List Int) : LoopState → List ObjectState → LoopState ⊕ RunResult
  | ls, [] => Sum.inl ls
  | ls, g :: rest =>
    match stepGoal d planner movable ls g with
    | Sum.inl ls' => runGoals d planner movable ls' rest
    | Sum.inr r => Sum.inr r

/-- The loop as a run outcome: completing the goal list finishes the loop. -/
def runLoop (d : Pose → Pose → ℚ × ℚ)
    (planner : WorldBelief → Int → Pose → Option Command × Stats)
    (movable : List Int) (ls : LoopState) (goals : List ObjectState) : RunResult :=
  match runGoals d planner movable ls goals with
  | Sum.inl ls' => .finished ls'
  | Sum.inr r => r

/-- main (tamp.py lines 103-162) from the point the two beliefs and the
strategies exist: run the loop over the goal objects starting from the
current belief with empty `plan_components`.  If the loop completes, line
161 wraps the accumulated sub-plans into `Sequence(plan_components,
"rearrangement_plan")` and line 162 evaluates
`sim_instance.execute_command(plan_sequence)` — but `SimulatorInstance`
defines no attribute `execute_command` (its interpreter method is
`execute_sequence`), so the attribute lookup raises `AttributeError` and
no command is ever dispatched on the primary instance. -/
def mainRun (d : Pose → Pose → ℚ × ℚ)
    (planner : WorldBelief → Int → Pose → Option Command × Stats)
    (movable : List Int) (belief : WorldBelief) (goal_belief : WorldBelief) : RunResult :=
  match runGoals d planner movable ⟨belief, [], []⟩ goal_belief.object_states with
  | Sum.inl ls =>
    .crashed { ls with plans := [Command.seq ls.plans (some "rearrangement_plan")] }
      "AttributeError: SimulatorInstance object has no attribute execute_command"
  | Sum.inr r => r

/-- Event trace of a loop step or run outcome. -/
def resEvents : LoopState ⊕ RunResult → List Event
  | Sum.inl ls => ls.events
  | Sum.inr (.finished ls) => ls.events
  | Sum.inr (.exited ls _ _) => ls.events
  | Sum.inr (.crashed ls _) => ls.events

/-- Number of planner invocations recorded in a trace. -/
def countCalls : List Event → Nat
  | [] => 0
  | .plannerCall _ _ :: rest => countCalls rest + 1
  | _ :: rest => countCalls rest

/-- Process exit status of a run, when the run ended in `sys.exit`. -/
def RunResult.exitStatus : RunResult → Option Nat
  | .exited _ _ c => some c
  | _ => none

/-- Whether the run terminated through `sys.exit` with a non-zero status:
the "non-zero-equivalent abnormal exit" the claim asserts. -/
def RunResult.nonzeroExit : RunResult → Bool
  | .exited _ _ c => c != 0
  | _ => false

/-! ## Concrete fixtures used by witnesses and counterexamples -/

/-- The attachment invariant asserted by the spec for one trajectory
playback, at a given backend forward-kinematics function `fk` (world pose
of a robot link as a function of the arm configuration): at every waypoint
state the child body's world pose equals the parent link world pose
composed with `parent_T_child`. -/
def attachmentFollowed (fk : List ℚ → Option Int → Pose) (w : World)
    (path : List (List ℚ)) (a : Attachment) : Bool :=
  (command_trajectory_states w path).all fun s =>
    decide (s.poses a.child = multiply (fk s.armConf a.parent_link) a.parent_T_child)

/-- Forward kinematics sample: the parent link sits at x = first arm joint
value, so it moves when the arm moves. -/
def fkEx : List ℚ → Option Int → Pose := fun conf _ => posePoint (conf.headD 0) 0 0

def attEx : Attachment := ⟨0, some 1, 2, unit_pose⟩

def wEx : World := ⟨fun _ => unit_pose, 10, [0], [0]⟩

def pathEx : List (List ℚ) := [[1]]

def instEx : SimInst := ⟨0, [5], [0, 0], [4 / 100, 4 / 100]⟩

def instEx8 : SimInst := ⟨0, [5], [0], [4 / 100]⟩

def wEx8 : World := ⟨fun _ => unit_pose, 10, [0, 0], [0, 0]⟩

def beliefEx8 : WorldBelief := ⟨[⟨posePoint 1 0 0, "red_box"⟩], [9, 9], true⟩

def beliefEx8bad : WorldBelief := ⟨[], [9, 9], true⟩

/-- World produced by the successful `set_belief` call of the C8 scenario. -/
def wEx8res : World := (set_belief instEx8 wEx8 beliefEx8).getD wEx8

/-- Pose-distance sample that always exceeds both tolerances. -/
def dFar : Pose → Pose → ℚ × ℚ := fun _ _ => (1, 0)

/-- Pose-distance sample that is always within both tolerances. -/
def dNear : Pose → Pose → ℚ × ℚ := fun _ _ => (0, 0)

def statsEx : Stats := [("infeasible", 1)]

/-- Planner sample that always reports infeasibility. -/
def plannerNone : WorldBelief → Int → Pose → Option Command × Stats :=
  fun _ _ _ => (none, statsEx)

def beliefEx1 : WorldBelief := ⟨[⟨unit_pose, "red_box"⟩], [0], true⟩

def goalObjEx1 : ObjectState := ⟨posePoint (1 / 10) 0 0, "red_box"⟩

def goalEx1 : WorldBelief := ⟨[goalObjEx1], [0], true⟩

def beliefEx2 : WorldBelief := ⟨[⟨unit_pose, "blue_box"⟩, ⟨unit_pose, "red_box"⟩], [0], true⟩

def lsEx2 : LoopState := ⟨beliefEx2, [], []⟩

def goalObjEx2 : ObjectState := ⟨unit_pose, "red_box"⟩

def trajEx3 : Trajectory := ⟨0, [0], [[1, 2], [3, 4]], 1, 0, []⟩

def subplanEx3 : Command :=
  Command.seq [Command.seq [Command.traj trajEx3] none] (some "pick_place")

/-- Planner sample that always returns the C3 sub-plan. -/
def plannerEx3 : WorldBelief → Int → Pose → Option Command × Stats :=
  fun _ _ _ => (some subplanEx3, [])

def lsEx3 : LoopState := ⟨beliefEx1, [], []⟩

def cmdsEx5 : List Command :=
  [Command.seq [Command.traj trajEx3, Command.seq [] none] (some "inner"),
   Command.traj ⟨0, [0], [[7]], 1, 0, []⟩]

/-! ## Theorems -/

/-- C9: `Grasp.get_pregrasp_pose` composes the four transforms
gripper_T_tool, translation by `tool_distance` along tool-local x, the
current tool pose, and translation by `-object_distance` along z in the
resulting frame, purely; in particular, whenever all composed transforms
are the identity except a single pure translation, the result equals
exactly that translation. -/
theorem C9_pregrasp_identity_translation (g : Grasp) (a b c dist : ℚ) :
    g.get_pregrasp_pose unit_pose (posePoint a b c) 0 0 = posePoint a b c ∧
    g.get_pregrasp_pose unit_pose unit_pose dist 0 = posePoint dist 0 0 ∧
    g.get_pregrasp_pose (posePoint a b c) unit_pose 0 0 = posePoint a b c ∧
    g.get_pregrasp_pose unit_pose unit_pose 0 dist = posePoint 0 0 (-dist) := by
  refine ⟨?_, ?_, ?_, ?_⟩ <;>
    · simp only [Grasp.get_pregrasp_pose, multiply, posePoint, unit_pose, unit_quat,
        Quat.mul, Quat.rotate, V3.add, V3.smul, V3.cross, Pose.mk.injEq, V3.mk.injEq,
        Quat.mk.injEq]
      norm_num

/-- C10: the `tool_link` property evaluates to `None` for every simulator
instance (its body has no return statement), so every `Attachment` built by
the shipped grasp generator has `parent_link = None`. -/
theorem C10_tool_link_is_none (sim : SimInst) (grasp_pose : Pose) (obj : Int) :
    sim.tool_link = none ∧
    (get_grasp_gen_fn sim grasp_pose obj).attachment.parent_link = none := by
  exact ⟨rfl, rfl⟩

/-- C6 (code bug): `Trajectory.reverse` never returns a trajectory — the
source calls the dataclass constructor with `self.robot` dropped, leaving
the required `path` parameter unbound, so every call raises `TypeError`.
The specified behaviour (path reversed, every other field unchanged,
reversal an involution on the path) holds of the spec-modelled
`reverseSpec`. -/
theorem C6_reverse_raises_typeerror :
    (∀ t : Trajectory, t.reverse =
      Except.error (PyError.typeError "Trajectory init missing 1 required positional argument: path")) ∧
    (∀ t : Trajectory,
      (Trajectory.reverseSpec t).path = t.path.reverse ∧
      (Trajectory.reverseSpec t).robot = t.robot ∧
      (Trajectory.reverseSpec t).joints = t.joints ∧
      (Trajectory.reverseSpec t).velocity_scale = t.velocity_scale ∧
      (Trajectory.reverseSpec t).time_after_contact = t.time_after_contact ∧
      (Trajectory.reverseSpec t).attachments = t.attachments ∧
      Trajectory.reverseSpec (Trajectory.reverseSpec t) = t) := by
  refine ⟨fun t => rfl, fun t => ⟨rfl, rfl, rfl, rfl, rfl, rfl, ?_⟩⟩
  cases t
  simp [Trajectory.reverseSpec]

/-- C7 (code bug): executing an `ActivateGrasp` or `DeactivateGrasp` leaf
raises `TypeError` — the interpreter calls `self.close_gripper(command)` /
`self.open_gripper(command)` but those methods take no argument — so the
gripper configuration is left untouched instead of being commanded to its
joint limits.  The methods themselves, called correctly with no argument
(as `from_belief` and `set_belief` do), do command the closed/open
limits. -/
theorem C7_grasp_leaves_raise_typeerror :
    (execute_sequence wEx [Command.activateGrasp 0 1 2]).2.2 =
      some (PyError.typeError "close_gripper takes 1 positional argument but 2 were given") ∧
    (execute_sequence wEx [Command.activateGrasp 0 1 2]).1.gripperConf = wEx.gripperConf ∧
    (execute_sequence wEx [Command.deactivateGrasp 0 1 2]).2.2 =
      some (PyError.typeError "open_gripper takes 1 positional argument but 2 were given") ∧
    (execute_sequence wEx [Command.deactivateGrasp 0 1 2]).1.gripperConf = wEx.gripperConf ∧
    (close_gripper instEx wEx).gripperConf = instEx.closedConf ∧
    (open_gripper instEx wEx).gripperConf = instEx.openConf := by
  refine ⟨?_, ?_, ?_, ?_, rfl, rfl⟩ <;> simp [execute_sequence]

/-- C8 (code bug): `set_belief` on an instance tracking body 5 at the
identity pose, given a belief whose single object is at `posePoint 1 0 0`,
leaves body 5 at the identity pose and instead instantiates a fresh body
(handle 10, advancing the allocator) at the belief pose — it re-poses no
tracked movable object.  The robot joint state and gripper state are
re-applied, and a belief with a mismatched object count is rejected by the
assertion. -/
theorem C8_set_belief_spawns_new_bodies :
    (set_belief instEx8 wEx8 beliefEx8).isSome = true ∧
    wEx8res.poses 5 = unit_pose ∧
    wEx8res.poses 10 = posePoint 1 0 0 ∧
    wEx8res.nextBody = 11 ∧
    wEx8res.armConf = [9, 9] ∧
    wEx8res.gripperConf = instEx8.openConf ∧
    set_belief instEx8 wEx8 beliefEx8bad = none := by
  exact ⟨rfl, rfl, rfl, rfl, rfl, rfl, rfl⟩

/-- C4 counterexample: the attachment invariant asserted by the claim —
at every waypoint of a trajectory listing an attachment the child's world
pose equals parent link world pose times `parent_T_child` — is false at a
concrete input: one waypoint moving the arm (and hence the parent link,
under the sample forward kinematics `fkEx`) while the child body, which the
interpreter never re-poses, stays at the identity pose. -/
theorem C4_counterexample : attachmentFollowed fkEx wEx pathEx attEx = false := by
  simp only [attachmentFollowed, command_trajectory_states, setArm, fkEx, wEx, pathEx,
    attEx, multiply, unit_pose, posePoint, unit_quat, Quat.mul, Quat.rotate, V3.add,
    V3.smul, V3.cross, List.all_cons, List.all_nil, List.headD, Bool.and_true,
    decide_eq_false_iff_not, Pose.mk.injEq, V3.mk.injEq, Quat.mk.injEq]
  norm_num

/-- C4 (amended): during execution of a Trajectory command the interpreter
does not re-satisfy attachments — `command_trajectory` receives only the
waypoint path, sets the arm group at each waypoint, and leaves every body
pose (in particular the grasped child's), the gripper configuration and
the body allocator unchanged at every waypoint state and at the end. -/
theorem C4_amended_attachments_ignored (w : World) (path : List (List ℚ)) :
    (command_trajectory w path).poses = w.poses ∧
    ∀ s, s ∈ command_trajectory_states w path →
      s.poses = w.poses ∧ s.gripperConf = w.gripperConf ∧ s.nextBody = w.nextBody := by
  induction path generalizing w with
  | nil => exact ⟨rfl, fun s hs => absurd hs (List.not_mem_nil s)⟩
  | cons p rest ih =>
    refine ⟨(ih (setArm w p)).1, fun s hs => ?_⟩
    rcases List.mem_cons.mp hs with h | h
    · subst h; exact ⟨rfl, rfl, rfl⟩
    · exact (ih (setArm w p)).2 s h

/-- C4 amended witness: the amended theorem applied to the concrete
one-waypoint trajectory of the counterexample. -/
theorem C4_amended_witness :
    (command_trajectory wEx pathEx).poses = wEx.poses ∧
    (setArm wEx [1]).poses = wEx.poses := by
  refine ⟨(C4_amended_attachments_ignored wEx pathEx).1, ?_⟩
  exact ((C4_amended_attachments_ignored wEx pathEx).2 (setArm wEx [1])
    (List.Mem.head _)).1

/-- Interpreter dispatch order, by strong induction on the size of the
command list: the dispatched-leaf trace extends to the flattened leaf list,
an error-free execution dispatches exactly the flattened list, and an
unrecognized value anywhere in the tree forces an error. -/
theorem exec_order_aux (n : ℕ) :
    ∀ (cmds : List Command), sizeOf cmds < n → ∀ (w w' : World) (tr : List LeafTag)
      (e : Option PyError), execute_sequence w cmds = (w', tr, e) →
      (∃ tl, tr ++ tl = flattenL cmds) ∧
      (e = none → tr = flattenL cmds) ∧
      (hasUnknownL cmds = true → ∃ err, e = some err) := by
  induction n with
  | zero => exact fun cmds h => absurd h (Nat.not_lt_zero _)
  | succ n ih =>
    intro cmds h w w' tr e heq
    match cmds with
    | [] =>
      simp only [execute_sequence, Prod.mk.injEq] at heq
      obtain ⟨-, rfl, rfl⟩ := heq
      simp [flattenL, hasUnknownL]
    | c :: rest =>
      have hrest : sizeOf rest < n := by
        simp only [List.cons.sizeOf_spec] at h
        have hc : 0 < sizeOf c := by cases c <;> simp
        omega
      cases c with
      | traj t =>
        rcases hrec : execute_sequence (command_trajectory w t.path) rest with ⟨w2, tr2, e2⟩
        have IH := ih rest hrest _ _ _ _ hrec
        rw [execute_sequence, hrec] at heq
        simp only [Prod.mk.injEq] at heq
        obtain ⟨-, rfl, rfl⟩ := heq
        simp only [flattenL, flattenC, hasUnknownL, hasUnknownC, Bool.false_or,
          List.singleton_append]
        refine ⟨?_, ?_, IH.2.2⟩
        · obtain ⟨tl, htl⟩ := IH.1
          exact ⟨tl, by simp [htl]⟩
        · intro he; rw [IH.2.1 he]
      | activateGrasp r l b =>
        rw [execute_sequence] at heq
        simp only [Prod.mk.injEq] at heq
        obtain ⟨-, rfl, rfl⟩ := heq
        simp only [flattenL, flattenC, hasUnknownL, hasUnknownC, Bool.false_or,
          List.singleton_append]
        exact ⟨⟨flattenL rest, rfl⟩, by simp, fun _ => ⟨_, rfl⟩⟩
      | deactivateGrasp r l b =>
        rw [execute_sequence] at heq
        simp only [Prod.mk.injEq] at heq
        obtain ⟨-, rfl, rfl⟩ := heq
        simp only [flattenL, flattenC, hasUnknownL, hasUnknownC, Bool.false_or,
          List.singleton_append]
        exact ⟨⟨flattenL rest, rfl⟩, by simp, fun _ => ⟨_, rfl⟩⟩
      | unknown descr =>
        rw [execute_sequence] at heq
        simp only [Prod.mk.injEq] at heq
        obtain ⟨-, rfl, rfl⟩ := heq
        simp only [flattenL, flattenC, hasUnknownL, hasUnknownC, Bool.true_or,
          List.nil_append]
        exact ⟨⟨flattenL rest, rfl⟩, by simp, fun _ => ⟨_, rfl⟩⟩
      | seq cs nm =>
        have hcs : sizeOf cs < n := by
          simp only [List.cons.sizeOf_spec, Command.seq.sizeOf_spec] at h
          omega
        rcases h1 : execute_sequence w cs with ⟨w1, tr1, e1⟩
        have IH1 := ih cs hcs _ _ _ _ h1
        cases e1 with
        | some err =>
          rw [execute_sequence, h1] at heq
          simp only [Prod.mk.injEq] at heq
          obtain ⟨-, rfl, rfl⟩ := heq
          simp only [flattenL, flattenC, hasUnknownL, hasUnknownC]
          refine ⟨?_, by simp, fun _ => ⟨err, rfl⟩⟩
          obtain ⟨t1, ht1⟩ := IH1.1
          exact ⟨t1 ++ flattenL rest, by rw [← List.append_assoc, ht1]⟩
        | none =>
          have htr1 : tr1 = flattenL cs := IH1.2.1 rfl
          rcases h2 : execute_sequence w1 rest with ⟨w2, tr2, e2⟩
          have IH2 := ih rest hrest _ _ _ _ h2
          rw [execute_sequence, h1] at heq
          dsimp only at heq
          rw [h2] at heq
          simp only [Prod.mk.injEq] at heq
          obtain ⟨-, rfl, rfl⟩ := heq
          simp only [flattenL, flattenC, hasUnknownL, hasUnknownC]
          refine ⟨?_, ?_, ?_⟩
          · obtain ⟨t2, ht2⟩ := IH2.1
            exact ⟨t2, by rw [List.append_assoc, ht2, htr1]⟩
          · intro he; rw [htr1, IH2.2.1 he]
          · intro hu
            rcases Bool.or_eq_true_iff.mp hu with hcs' | hrest'
            · obtain ⟨err, herr⟩ := IH1.2.2 hcs'
              exact absurd herr (by simp)
            · exact IH2.2.2 hrest'

/-- C5: executing a command tree with execute_sequence dispatches leaves in
exactly the fully flattened left-to-right leaf order regardless of nesting
depth — the dispatched trace is always a front segment of the flattened
leaf list, and it is the whole flattened list whenever no command-level
failure occurs — and an unrecognized command variant anywhere in the tree
raises a fatal error rather than being silently skipped. -/
theorem C5_flattened_dispatch_order (w w' : World) (cmds : List Command)
    (tr : List LeafTag) (e : Option PyError)
    (h : execute_sequence w cmds = (w', tr, e)) :
    (∃ tl, tr ++ tl = flattenL cmds) ∧
    (e = none → tr = flattenL cmds) ∧
    (hasUnknownL cmds = true → ∃ err, e = some err) :=
  exec_order_aux (sizeOf cmds + 1) cmds (Nat.lt_succ_self _) w w' tr e h

/-- C5 witness: on a concrete nested tree of trajectory leaves the theorem
yields the flattened dispatch order, with every hypothesis discharged by
evaluation. -/
theorem C5_witness :
    (execute_sequence wEx cmdsEx5).2.1 = flattenL cmdsEx5 := by
  rcases hfull : execute_sequence wEx cmdsEx5 with ⟨w', tr, e⟩
  have he : e = none := by
    have hp := congrArg (fun p => p.2.2) hfull
    simp only at hp
    rw [← hp]
    simp [execute_sequence, cmdsEx5, command_trajectory, trajEx3]
  exact (C5_flattened_dispatch_order wEx w' cmdsEx5 tr e hfull).2.1 he

/-- Characterization of the comprehension-plus-`[0]` lookup: a successful
`firstMatch` returns the matching object at the returned index, and no
earlier object matches the category. -/
theorem firstMatch_spec (objs : List ObjectState) (cat : String) :
    ∀ idx o, firstMatch objs cat = some (idx, o) →
      objs.get? idx = some o ∧ o.category = cat ∧
      ∀ j, j < idx → ∀ o', objs.get? j = some o' → o'.category ≠ cat := by
  induction objs with
  | nil => intro idx o h; exact absurd h (by simp [firstMatch])
  | cons a rest ih =>
    intro idx o h
    by_cases hcat : a.category = cat
    · rw [firstMatch, if_pos hcat] at h
      simp only [Option.some.injEq, Prod.mk.injEq] at h
      obtain ⟨rfl, rfl⟩ := h
      exact ⟨rfl, hcat, fun j hj => absurd hj (Nat.not_lt_zero j)⟩
    · rw [firstMatch, if_neg hcat] at h
      rcases hm : firstMatch rest cat with _ | ⟨i', o'⟩
      · rw [hm] at h; simp at h
      · rw [hm] at h
        simp only [Option.map_some', Option.some.injEq, Prod.mk.injEq] at h
        obtain ⟨rfl, rfl⟩ := h
        refine ⟨by simpa using (ih _ _ hm).1, (ih _ _ hm).2.1, ?_⟩
        intro j hj o'' hj'
        cases j with
        | zero =>
          simp only [List.get?_cons_zero, Option.some.injEq] at hj'
          rw [← hj']
          exact hcat
        | succ k =>
          exact (ih _ _ hm).2.2 k (by omega) o'' (by simpa using hj')

/-- Planner-call counting distributes over trace concatenation. -/
theorem countCalls_append (a b : List Event) :
    countCalls (a ++ b) = countCalls a + countCalls b := by
  induction a with
  | nil => simp [countCalls]
  | cons x rest ih =>
    cases x <;> simp [countCalls, ih]
    omega

/-- A goal object whose matched belief object is within both tolerances is
skipped: the loop state is returned unchanged. -/
theorem stepGoal_skip (d : Pose → Pose → ℚ × ℚ)
    (planner : WorldBelief → Int → Pose → Option Command × Stats) (movable : List Int)
    (ls : LoopState) (g : ObjectState) (idx : ℕ) (bobj : ObjectState)
    (hmatch : firstMatch ls.belief.object_states g.category = some (idx, bobj))
    (htol : ¬ ((1 / 100 : ℚ) < (d bobj.pose g.pose).1 ∨
      (1 / 100 : ℚ) < (d bobj.pose g.pose).2)) :
    stepGoal d planner movable ls g = Sum.inl ls := by
  unfold stepGoal
  rw [hmatch]
  dsimp only
  rw [if_neg htol]

/-- Running the loop on a concatenation of goal lists is running it on the
first list and, if that continues, on the second from the reached state. -/
theorem runGoals_append (d : Pose → Pose → ℚ × ℚ)
    (planner : WorldBelief → Int → Pose → Option Command × Stats) (movable : List Int)
    (l1 l2 : List ObjectState) : ∀ ls : LoopState,
    runGoals d planner movable ls (l1 ++ l2) =
      match runGoals d planner movable ls l1 with
      | Sum.inl ls' => runGoals d planner movable ls' l2
      | Sum.inr r => Sum.inr r := by
  induction l1 with
  | nil => intro ls; rfl
  | cons g rest ih =>
    intro ls
    simp only [List.cons_append, runGoals]
    cases h : stepGoal d planner movable ls g with
    | inl ls' => exact ih ls'
    | inr r => rfl

/-- C2: for each goal object the orchestrator takes the first belief object
of equal category (linear scan, first match wins); it skips the object when
both pose-error components are within 1e-2; the planning strategies are
invoked exactly when the position error exceeds 1e-2 or the orientation
error exceeds 1e-2 (one planner call, versus none on a skip); and a run
whose every goal object is matched within tolerance finishes with the loop
state untouched — planning nothing.  The pose-error pair `d` stands for
the external `pbu.get_pose_distance`. -/
theorem C2_first_match_and_tolerance_gate (d : Pose → Pose → ℚ × ℚ)
    (planner : WorldBelief → Int → Pose → Option Command × Stats) (movable : List Int)
    (ls : LoopState) (g : ObjectState) (idx : ℕ) (bobj : ObjectState)
    (hmatch : firstMatch ls.belief.object_states g.category = some (idx, bobj)) :
    (ls.belief.object_states.get? idx = some bobj ∧ bobj.category = g.category ∧
      ∀ j, j < idx → ∀ o', ls.belief.object_states.get? j = some o' →
        o'.category ≠ g.category) ∧
    (¬ ((1 / 100 : ℚ) < (d bobj.pose g.pose).1 ∨
        (1 / 100 : ℚ) < (d bobj.pose g.pose).2) →
      stepGoal d planner movable ls g = Sum.inl ls) ∧
    (∀ simObj, movable.get? idx = some simObj →
      countCalls (resEvents (stepGoal d planner movable ls g)) =
        countCalls ls.events +
          (if (1 / 100 : ℚ) < (d bobj.pose g.pose).1 ∨
              (1 / 100 : ℚ) < (d bobj.pose g.pose).2 then 1 else 0)) ∧
    (∀ goals : List ObjectState,
      (∀ g' ∈ goals, ∃ i o, firstMatch ls.belief.object_states g'.category = some (i, o) ∧
        ¬ ((1 / 100 : ℚ) < (d o.pose g'.pose).1 ∨
           (1 / 100 : ℚ) < (d o.pose g'.pose).2)) →
      runLoop d planner movable ls goals = RunResult.finished ls) := by
  refine ⟨firstMatch_spec _ _ _ _ hmatch, ?_, ?_, ?_⟩
  · intro htol
    exact stepGoal_skip d planner movable ls g idx bobj hmatch htol
  · intro simObj hso
    by_cases hc : (1 / 100 : ℚ) < (d bobj.pose g.pose).1 ∨
        (1 / 100 : ℚ) < (d bobj.pose g.pose).2
    · rw [if_pos hc]
      unfold stepGoal
      rw [hmatch]
      dsimp only
      rw [if_pos hc, hso]
      dsimp only
      rcases hp : planner ls.belief simObj g.pose with ⟨sub, stats⟩
      cases sub with
      | none =>
        dsimp only [resEvents]
        rw [countCalls_append]
        simp [countCalls]
      | some sp =>
        cases hcf : subplanFinalConf sp <;>
          · dsimp only [resEvents]
            rw [hcf]
            dsimp only [resEvents]
            rw [countCalls_append]
            simp [countCalls]
    · rw [if_neg hc,
        stepGoal_skip d planner movable ls g idx bobj hmatch hc]
      simp [resEvents]
  · intro goals hgoals
    induction goals with
    | nil => rfl
    | cons g' rest ih =>
      obtain ⟨i, o, hm', htol'⟩ := hgoals g' (List.mem_cons_self g' rest)
      have hskip := stepGoal_skip d planner movable ls g' i o hm' htol'
      have ihrest := ih (fun g'' hg'' => hgoals g'' (List.mem_cons_of_mem g' hg''))
      unfold runLoop at ihrest ⊢
      simp only [runGoals, hskip]
      exact ihrest

/-- C2 witness: a two-object belief whose second object is the first (and
only) category match, with a within-tolerance metric: the step is a skip,
no planner call is recorded, and the one-goal run finishes with the state
untouched. -/
theorem C2_witness :
    stepGoal dNear plannerNone [3, 4] lsEx2 goalObjEx2 = Sum.inl lsEx2 ∧
    countCalls (resEvents (stepGoal dNear plannerNone [3, 4] lsEx2 goalObjEx2)) = 0 ∧
    runLoop dNear plannerNone [3, 4] lsEx2 [goalObjEx2] = RunResult.finished lsEx2 := by
  have hmatch : firstMatch lsEx2.belief.object_states goalObjEx2.category =
      some (1, ⟨unit_pose, "red_box"⟩) := by
    simp [firstMatch, lsEx2, beliefEx2, goalObjEx2]
  have h := C2_first_match_and_tolerance_gate dNear plannerNone [3, 4] lsEx2 goalObjEx2
    1 ⟨unit_pose, "red_box"⟩ hmatch
  have htol : ¬ ((1 / 100 : ℚ) < (dNear unit_pose goalObjEx2.pose).1 ∨
      (1 / 100 : ℚ) < (dNear unit_pose goalObjEx2.pose).2) := by
    simp [dNear]
  refine ⟨h.2.1 htol, ?_, ?_⟩
  · have h3 := h.2.2.1 4 rfl
    rw [if_neg htol] at h3
    simpa [lsEx2, countCalls] using h3
  · refine h.2.2.2 [goalObjEx2] ?_
    intro g' hg'
    rw [List.mem_singleton.mp hg']
    exact ⟨1, ⟨unit_pose, "red_box"⟩, hmatch, htol⟩

/-- C3: when the planner succeeds on a goal object, the orchestrator sets
the matched belief object's pose to the goal pose, sets the belief robot
joint state to the last waypoint of the last motion segment of the
sub-plan (the last command of the sub-plan's last inner Sequence), appends
the sub-plan to the accumulated plan list, and changes nothing else: the
gripper flag and every other object are untouched, and the only trace
event added is the planner call. -/
theorem C3_success_updates_belief (d : Pose → Pose → ℚ × ℚ)
    (planner : WorldBelief → Int → Pose → Option Command × Stats) (movable : List Int)
    (ls : LoopState) (g : ObjectState) (idx : ℕ) (bobj : ObjectState) (simObj : Int)
    (cs inner : List Command) (nm nm2 : Option String) (t : Trajectory)
    (conf : List ℚ) (stats : Stats)
    (hmatch : firstMatch ls.belief.object_states g.category = some (idx, bobj))
    (herr : (1 / 100 : ℚ) < (d bobj.pose g.pose).1 ∨
      (1 / 100 : ℚ) < (d bobj.pose g.pose).2)
    (hso : movable.get? idx = some simObj)
    (hplan : planner ls.belief simObj g.pose = (some (Command.seq cs nm), stats))
    (hlast : cs.getLast? = some (Command.seq inner nm2))
    (hinner : inner.getLast? = some (Command.traj t))
    (hpath : t.path.getLast? = some conf) :
    stepGoal d planner movable ls g = Sum.inl
      { belief :=
          { object_states := ls.belief.object_states.set idx { bobj with pose := g.pose },
            robot_state := conf,
            gripper_open := ls.belief.gripper_open },
        plans := ls.plans ++ [Command.seq cs nm],
        events := ls.events ++ [Event.plannerCall simObj g.pose] } ∧
    ∀ j, j ≠ idx →
      (ls.belief.object_states.set idx { bobj with pose := g.pose }).get? j =
        ls.belief.object_states.get? j := by
  have hconf : subplanFinalConf (Command.seq cs nm) = some conf := by
    simp only [subplanFinalConf, hlast, hinner, hpath]
  constructor
  · unfold stepGoal
    rw [hmatch]
    dsimp only
    rw [if_pos herr, hso]
    dsimp only
    rw [hplan]
    dsimp only
    rw [hconf]
  · intro j hj
    simp only [List.get?_eq_getElem?]
    exact List.getElem?_set_ne (fun h => hj h.symm)

/-- C3 witness: the theorem applied to a concrete one-object belief, a goal
shifted beyond tolerance, and a planner returning a concrete nested
sub-plan whose final trajectory waypoint is [3, 4]. -/
theorem C3_witness :
    stepGoal dFar plannerEx3 [7] lsEx3 goalObjEx1 = Sum.inl
      { belief := { object_states := [⟨posePoint (1 / 10) 0 0, "red_box"⟩],
                    robot_state := [3, 4], gripper_open := true },
        plans := [subplanEx3],
        events := [Event.plannerCall 7 goalObjEx1.pose] } := by
  have hmatch : firstMatch lsEx3.belief.object_states goalObjEx1.category =
      some (0, ⟨unit_pose, "red_box"⟩) := by
    simp [firstMatch, lsEx3, beliefEx1, goalObjEx1]
  have herr : (1 / 100 : ℚ) < (dFar unit_pose goalObjEx1.pose).1 ∨
      (1 / 100 : ℚ) < (dFar unit_pose goalObjEx1.pose).2 := by
    left
    simp [dFar]
    norm_num
  have h := C3_success_updates_belief dFar plannerEx3 [7] lsEx3 goalObjEx1 0
    ⟨unit_pose, "red_box"⟩ 7 [Command.seq [Command.traj trajEx3] none] [Command.traj trajEx3]
    (some "pick_place") none trajEx3 [3, 4] [] hmatch herr rfl rfl rfl rfl rfl
  simpa [lsEx3, beliefEx1, subplanEx3, goalObjEx1] using h.1

/-- C1 (amended): when, mid-run, a goal object's pose error exceeds
tolerance and the planner reports no feasible sub-plan, the run prints the
"Planning failure" line and the diagnostic statistics record and
terminates immediately through `sys.exit()` — Python's `sys.exit()` with no
argument exits with status 0, a normal (zero) exit status, not a non-zero
one — executing none of the accumulated sub-plans (the result is the
`exited` outcome; no dispatch to the primary instance happens on any path
of `mainRun` before its final line), processing no later goal object, and
keeping every belief update committed for earlier objects (the loop state
`ls` reached after the earlier goals is carried into the outcome with its
belief and plans intact). -/
theorem C1_abort_without_rollback (d : Pose → Pose → ℚ × ℚ)
    (planner : WorldBelief → Int → Pose → Option Command × Stats) (movable : List Int)
    (binit : WorldBelief) (pre rest : List ObjectState) (g : ObjectState)
    (grobot : List ℚ) (ggrip : Bool) (ls : LoopState) (idx : ℕ) (bobj : ObjectState)
    (simObj : Int) (stats : Stats)
    (hpre : runGoals d planner movable ⟨binit, [], []⟩ pre = Sum.inl ls)
    (hmatch : firstMatch ls.belief.object_states g.category = some (idx, bobj))
    (herr : (1 / 100 : ℚ) < (d bobj.pose g.pose).1 ∨
      (1 / 100 : ℚ) < (d bobj.pose g.pose).2)
    (hso : movable.get? idx = some simObj)
    (hplan : planner ls.belief simObj g.pose = (none, stats)) :
    mainRun d planner movable binit ⟨pre ++ g :: rest, grobot, ggrip⟩ =
      RunResult.exited
        { ls with events := ls.events ++
            [Event.plannerCall simObj g.pose, Event.printLine "Planning failure",
             Event.printStats stats] } stats 0 := by
  have hstep : stepGoal d planner movable ls g = Sum.inr (RunResult.exited
      { ls with events := ls.events ++
          [Event.plannerCall simObj g.pose, Event.printLine "Planning failure",
           Event.printStats stats] } stats 0) := by
    unfold stepGoal
    rw [hmatch]
    dsimp only
    rw [if_pos herr, hso]
    dsimp only
    rw [hplan]
  unfold mainRun
  dsimp only
  rw [runGoals_append d planner movable pre (g :: rest) ⟨binit, [], []⟩, hpre]
  dsimp only
  simp only [runGoals, hstep]

/-- C1 counterexample: at a concrete run — one goal object beyond
tolerance, planner reporting infeasibility — the run does terminate via
`sys.exit`, but its exit status is 0 (`sys.exit()` with no argument), not
the non-zero-equivalent abnormal status the claim asserts. -/
theorem C1_counterexample :
    (mainRun dFar plannerNone [3] beliefEx1 goalEx1).exitStatus = some 0 ∧
    (mainRun dFar plannerNone [3] beliefEx1 goalEx1).nonzeroExit = false := by
  have hmatch : firstMatch (⟨beliefEx1, [], []⟩ : LoopState).belief.object_states
      goalObjEx1.category = some (0, ⟨unit_pose, "red_box"⟩) := by
    simp [firstMatch, beliefEx1, goalObjEx1]
  have hrun : mainRun dFar plannerNone [3] beliefEx1 goalEx1 =
      RunResult.exited
        { belief := beliefEx1, plans := [],
          events := [Event.plannerCall 3 goalObjEx1.pose,
            Event.printLine "Planning failure", Event.printStats statsEx] } statsEx 0 := by
    unfold mainRun
    dsimp only [goalEx1]
    simp only [runGoals]
    unfold stepGoal
    rw [hmatch]
    dsimp only
    rw [if_pos (by left; simp [dFar]; norm_num)]
    rfl
  rw [hrun]
  exact ⟨rfl, rfl⟩

/-- C1 witness: the amended theorem applied to the concrete single-object
failure run (empty earlier prefix), every hypothesis discharged by
evaluation. -/
theorem C1_witness :
    mainRun dFar plannerNone [3] beliefEx1 ⟨[] ++ goalObjEx1 :: [], [0], true⟩ =
      RunResult.exited
        { belief := beliefEx1, plans := [],
          events := [] ++ [Event.plannerCall 3 goalObjEx1.pose,
            Event.printLine "Planning failure", Event.printStats statsEx] } statsEx 0 := by
  have hmatch : firstMatch (⟨beliefEx1, ([] : List Command), ([] : List Event)⟩ :
      LoopState).belief.object_states goalObjEx1.category =
      some (0, ⟨unit_pose, "red_box"⟩) := by
    simp [firstMatch, beliefEx1, goalObjEx1]
  exact C1_abort_without_rollback dFar plannerNone [3] beliefEx1 [] [] goalObjEx1
    [0] true ⟨beliefEx1, [], []⟩ 0 ⟨unit_pose, "red_box"⟩ 3 statsEx rfl hmatch
    (by left; simp [dFar]; norm_num) rfl rfl

end TinyTamp
